import Mathlib

/-!
Verification of the credential lifecycle manager in `src/index.ts`
(`GoogleOfflineAccess`): configuration resolution in the constructor,
the freshness / refresh / reuse decision in `getAuthenticatedAuthClient`,
and the store writes performed by `login` and the refresh path.

The embedding mirrors the JavaScript semantics used by the source:
optional fields are `Option`, JavaScript truthiness on strings is
"present and non-empty", on numbers "present and non-zero", and the
`??` operator keeps any non-`undefined` value (including `false`).
Filesystem and network effects are made explicit: the store content is
an input, the refresh response is an input (with `none` standing for an
upstream failure), and the result carries a trace of log messages,
store reads, store writes, directory creations and refresh calls.
-/

namespace GoogleOfflineAccess

/-- The persisted credential document (`Credentials` from the source):
`{access_token, expiry_date, refresh_token}`, every field optional. -/
structure Credentials where
  access_token : Option String
  expiry_date : Option Int
  refresh_token : Option String
deriving Repr, DecidableEq

/-- The empty credential set built at the start of
`getAuthenticatedAuthClient`. -/
def Credentials.empty : Credentials :=
  { access_token := none, expiry_date := none, refresh_token := none }

/-- JavaScript truthiness of an optional string: present and non-empty. -/
def truthyStr : Option String → Bool
  | some s => s ≠ ""
  | none => false

/-- JavaScript truthiness of an optional number: present and non-zero. -/
def truthyNum : Option Int → Bool
  | some v => v ≠ 0
  | none => false

/-- The `authStateFile` field: a path, or `false` to disable caching. -/
inductive AuthStateFileSetting where
  | disabled
  | path (p : String)
deriving Repr, DecidableEq

/-- JavaScript truthiness of `this.authStateFile` (`false` and the empty
string are falsy). -/
def AuthStateFileSetting.truthy : AuthStateFileSetting → Bool
  | .disabled => false
  | .path p => p ≠ ""

/-- The log sink: either the built-in `console.log` default or a
caller-supplied function (identified abstractly). -/
inductive LogSink where
  | consoleDefault
  | custom (id : Nat)
deriving Repr, DecidableEq

/-- The three environment variables consulted by the constructor. -/
structure EnvVars where
  googleClientSecretFile : Option String
  googleAuthStateFile : Option String
  googleRefreshToken : Option String
deriving Repr, DecidableEq

/-- Options accepted by the constructor
(`GoogleOfflineAccessOptions`): every configuration field optional
(`none` = not supplied); `scopes` is omitted, no claim concerns it. -/
structure GoogleOfflineAccessOptions where
  clientSecretFile : Option String
  authStateFile : Option AuthStateFileSetting
  defaultRefreshToken : Option String
  log : Option LogSink
deriving Repr, DecidableEq

/-- The resolved configuration held by a constructed manager. -/
structure Config where
  clientSecretFile : String
  authStateFile : AuthStateFileSetting
  defaultRefreshToken : Option String
  log : LogSink
deriving Repr, DecidableEq

/-- The constructor of `GoogleOfflineAccess`: each field resolves as
`options.x ?? process.env.X ?? builtinDefault`, evaluated once, at
construction. -/
def construct (options : GoogleOfflineAccessOptions) (env : EnvVars) : Config :=
  { clientSecretFile :=
      options.clientSecretFile.getD
        (env.googleClientSecretFile.getD ".data/google_client_secret.json")
    authStateFile :=
      options.authStateFile.getD
        (match env.googleAuthStateFile with
         | some s => .path s
         | none => .path ".data/google_auth.json")
    defaultRefreshToken :=
      options.defaultRefreshToken.or env.googleRefreshToken
    log := options.log.getD .consoleDefault }

/-- The successful result of `authClient.refreshAccessToken()`: the
fields of `response.credentials` the source reads. -/
structure RefreshResp where
  access_token : Option String
  expiry_date : Option Int
deriving Repr, DecidableEq

/-- The errors `getAuthenticatedAuthClient` can throw: the
missing-refresh-token error (with its message), or a propagated
upstream failure of the refresh call. -/
inductive GAACError where
  | missingRefreshToken (msg : String)
  | upstream
deriving Repr, DecidableEq

/-- The exact message of the missing-refresh-token error thrown by the
source. -/
def missingRefreshTokenMessage : String :=
  "No refresh token found. Please provide one via the GOOGLE_REFRESH_TOKEN environment variable."

/-- Log message of the refresh branch when an expiry was recorded. -/
def tokenExpiredMessage : String := "Token expired, renewing..."

/-- Log message of the refresh branch when no (truthy) expiry was
recorded. -/
def noTokenFoundMessage : String := "No token found, getting new one..."

/-- Log message of the reuse branch: remaining validity in whole
minutes, floor division of milliseconds-to-expiry by 60000. -/
def stillValidMessage (now e : Int) : String :=
  "Token is still valid for " ++ toString ((e - now).fdiv 60000) ++ " minutes"

/-- Side-effect trace of one `getAuthenticatedAuthClient` call. -/
structure Trace where
  logs : List String
  storeReads : Nat
  storeWrites : List Credentials
  mkdirCalls : Nat
  refreshCalls : Nat
deriving Repr, DecidableEq

/-- Outcome of one `getAuthenticatedAuthClient` call: the credential
set installed on the returned client, or a thrown error; both carry the
side-effect trace. -/
inductive GAACOut where
  | ok (installed : Credentials) (tr : Trace)
  | err (e : GAACError) (tr : Trace)
deriving Repr, DecidableEq

/-- The trace of an outcome, success or error. -/
def GAACOut.trace : GAACOut → Trace
  | .ok _ tr => tr
  | .err _ tr => tr

/-- Step 2 of the algorithm: an empty credential set, seeded with the
configured default refresh token when that is truthy. -/
def seedCredentials (cfg : Config) : Credentials :=
  if truthyStr cfg.defaultRefreshToken then
    { Credentials.empty with refresh_token := cfg.defaultRefreshToken }
  else Credentials.empty

/-- Whether step 3 reads the store: `this.authStateFile` truthy and the
file exists (`store` is the parsed file content when it exists). -/
def storeConsulted (cfg : Config) (store : Option Credentials) : Bool :=
  cfg.authStateFile.truthy && store.isSome

/-- The credential set after steps 2 and 3: when the store is read, all
three fields are overwritten with the stored values (present or not). -/
def initialCredentials (cfg : Config) (store : Option Credentials) : Credentials :=
  match store with
  | some tok =>
    if cfg.authStateFile.truthy then
      { access_token := tok.access_token
        expiry_date := tok.expiry_date
        refresh_token := tok.refresh_token }
    else seedCredentials cfg
  | none => seedCredentials cfg

/-- The freshness test of step 4, as the source writes it:
`!credentials.expiry_date || Date.now() + 300e3 > credentials.expiry_date`. -/
def needsRefresh (now : Int) (c : Credentials) : Bool :=
  match c.expiry_date with
  | none => true
  | some e => e == 0 || now + 300000 > e

/-- The log message emitted on the refresh branch, chosen by
truthiness of `credentials.expiry_date`. -/
def refreshBranchMessage (c : Credentials) : String :=
  if truthyNum c.expiry_date then tokenExpiredMessage else noTokenFoundMessage

/-- The central algorithm `getAuthenticatedAuthClient`, with the file
content at the auth state path (`store`, `none` when the file does not
exist) and the refresh response (`refreshResp`, `none` for an upstream
failure) as explicit inputs. -/
def getAuthenticatedAuthClient (cfg : Config) (store : Option Credentials)
    (now : Int) (refreshResp : Option RefreshResp) : GAACOut :=
  let credentials := initialCredentials cfg store
  let reads : Nat := if storeConsulted cfg store then 1 else 0
  if needsRefresh now credentials then
    let logs := [refreshBranchMessage credentials]
    if truthyStr credentials.refresh_token then
      match refreshResp with
      | some resp =>
        let newCredentials : Credentials :=
          { credentials with
              access_token := resp.access_token
              expiry_date := resp.expiry_date }
        let writes := if cfg.authStateFile.truthy then [newCredentials] else []
        .ok newCredentials
          { logs := logs, storeReads := reads, storeWrites := writes
            mkdirCalls := 0, refreshCalls := 1 }
      | none =>
        .err .upstream
          { logs := logs, storeReads := reads, storeWrites := []
            mkdirCalls := 0, refreshCalls := 1 }
    else
      .err (.missingRefreshToken missingRefreshTokenMessage)
        { logs := logs, storeReads := reads, storeWrites := []
          mkdirCalls := 0, refreshCalls := 0 }
  else
    .ok credentials
      { logs := [stillValidMessage now (credentials.expiry_date.getD 0)]
        storeReads := reads, storeWrites := []
        mkdirCalls := 0, refreshCalls := 0 }

/-- Side-effect trace of one `login` call (the token exchange having
returned `tokens`): parent directories created, then the document
written, when persistence is enabled. -/
structure LoginOut where
  written : Option Credentials
  mkdirCalls : Nat
deriving Repr, DecidableEq

/-- The operation `login(code)` after a successful exchange returning
`tokens`: `mkdirSync(dirname, recursive)` then `writeFileSync` of the
whole token set, when `this.authStateFile` is truthy. -/
def login (cfg : Config) (tokens : Credentials) : LoginOut :=
  if cfg.authStateFile.truthy then
    { written := some tokens, mkdirCalls := 1 }
  else
    { written := none, mkdirCalls := 0 }

/-- The store file content after applying a list of whole-document
writes (each write replaces the file). -/
def applyWrites (store : Option Credentials) (writes : List Credentials) :
    Option Credentials :=
  match writes.getLast? with
  | some w => some w
  | none => store

/-- Store file content after one `getAuthenticatedAuthClient` call. -/
def storeAfterGAAC (cfg : Config) (store : Option Credentials)
    (now : Int) (refreshResp : Option RefreshResp) : Option Credentials :=
  applyWrites store (getAuthenticatedAuthClient cfg store now refreshResp).trace.storeWrites

/-- Store file content after one `login` call whose exchange returned
`tokens`. -/
def storeAfterLogin (cfg : Config) (store : Option Credentials)
    (tokens : Credentials) : Option Credentials :=
  match (login cfg tokens).written with
  | some w => some w
  | none => store

/-- The seeded credential set carries the default refresh token exactly
when that token is truthy. -/
lemma truthyStr_seed (cfg : Config) :
    truthyStr (seedCredentials cfg).refresh_token = truthyStr cfg.defaultRefreshToken := by
  unfold seedCredentials
  split <;> simp_all [Credentials.empty, truthyStr]

/-- The refresh token of the seeded credential set. -/
lemma seed_refresh_token (cfg : Config) :
    (seedCredentials cfg).refresh_token =
      (if truthyStr cfg.defaultRefreshToken then cfg.defaultRefreshToken else none) := by
  unfold seedCredentials
  split <;> rfl

/-- When neither the configuration nor the store supplies a truthy
refresh token, the credential set after steps 2 and 3 has none. -/
lemma initial_rt_not_truthy (cfg : Config) (store : Option Credentials)
    (hd : truthyStr cfg.defaultRefreshToken = false)
    (hs : ∀ t, store = some t → truthyStr t.refresh_token = false) :
    truthyStr (initialCredentials cfg store).refresh_token = false := by
  unfold initialCredentials
  cases store with
  | none => rw [truthyStr_seed]; exact hd
  | some t =>
    simp only
    split
    · exact hs t rfl
    · rw [truthyStr_seed]; exact hd

/-- When the auth state path is falsy, steps 2 and 3 leave the seeded
refresh token in place. -/
lemma initial_rt_disabled (cfg : Config) (store : Option Credentials)
    (ht : cfg.authStateFile.truthy = false) :
    (initialCredentials cfg store).refresh_token = (seedCredentials cfg).refresh_token := by
  unfold initialCredentials
  cases store with
  | none => rfl
  | some t => simp only [ht, Bool.false_eq_true, if_false]

/-- A stale credential set without a truthy refresh token makes the
call throw the missing-refresh-token error, with no store write. -/
lemma gaac_missing_rt (cfg : Config) (store : Option Credentials)
    (now : Int) (resp : Option RefreshResp)
    (hrt : truthyStr (initialCredentials cfg store).refresh_token = false)
    (hn : needsRefresh now (initialCredentials cfg store) = true) :
    getAuthenticatedAuthClient cfg store now resp =
      .err (.missingRefreshToken missingRefreshTokenMessage)
        { logs := [refreshBranchMessage (initialCredentials cfg store)]
          storeReads := if storeConsulted cfg store then 1 else 0
          storeWrites := []
          mkdirCalls := 0
          refreshCalls := 0 } := by
  unfold getAuthenticatedAuthClient
  simp [hn, hrt]

/-- Every credential document the call writes keeps the refresh token
of the credential set read at the start. -/
lemma gaac_writes_refresh_token (cfg : Config) (store : Option Credentials)
    (now : Int) (resp : Option RefreshResp) :
    ∀ w ∈ (getAuthenticatedAuthClient cfg store now resp).trace.storeWrites,
      w.refresh_token = (initialCredentials cfg store).refresh_token := by
  intro w hw
  by_cases hn : needsRefresh now (initialCredentials cfg store) = true
  · by_cases hrt : truthyStr (initialCredentials cfg store).refresh_token = true
    · cases resp with
      | none => simp [getAuthenticatedAuthClient, hn, hrt, GAACOut.trace] at hw
      | some r =>
        simp only [getAuthenticatedAuthClient, hn, hrt, if_true, GAACOut.trace] at hw
        split at hw
        · simp only [List.mem_singleton] at hw
          subst hw
          rfl
        · simp at hw
    · simp [getAuthenticatedAuthClient, hn, hrt, GAACOut.trace] at hw
  · simp [getAuthenticatedAuthClient, hn, GAACOut.trace] at hw

/-- The call reads the store exactly when persistence is enabled and
the file exists. -/
lemma gaac_trace_storeReads (cfg : Config) (store : Option Credentials)
    (now : Int) (resp : Option RefreshResp) :
    (getAuthenticatedAuthClient cfg store now resp).trace.storeReads =
      if storeConsulted cfg store then 1 else 0 := by
  by_cases hn : needsRefresh now (initialCredentials cfg store) = true
  · by_cases hrt : truthyStr (initialCredentials cfg store).refresh_token = true
    · cases resp <;> simp [getAuthenticatedAuthClient, hn, hrt, GAACOut.trace]
    · simp [getAuthenticatedAuthClient, hn, hrt, GAACOut.trace]
  · simp [getAuthenticatedAuthClient, hn, GAACOut.trace]

/-- The call never creates directories. -/
lemma gaac_trace_mkdirCalls (cfg : Config) (store : Option Credentials)
    (now : Int) (resp : Option RefreshResp) :
    (getAuthenticatedAuthClient cfg store now resp).trace.mkdirCalls = 0 := by
  by_cases hn : needsRefresh now (initialCredentials cfg store) = true
  · by_cases hrt : truthyStr (initialCredentials cfg store).refresh_token = true
    · cases resp <;> simp [getAuthenticatedAuthClient, hn, hrt, GAACOut.trace]
    · simp [getAuthenticatedAuthClient, hn, hrt, GAACOut.trace]
  · simp [getAuthenticatedAuthClient, hn, GAACOut.trace]

/-- The single log message of the call, by branch. -/
lemma gaac_trace_logs (cfg : Config) (store : Option Credentials)
    (now : Int) (resp : Option RefreshResp) :
    (getAuthenticatedAuthClient cfg store now resp).trace.logs =
      if needsRefresh now (initialCredentials cfg store) then
        [refreshBranchMessage (initialCredentials cfg store)]
      else
        [stillValidMessage now ((initialCredentials cfg store).expiry_date.getD 0)] := by
  by_cases hn : needsRefresh now (initialCredentials cfg store) = true
  · by_cases hrt : truthyStr (initialCredentials cfg store).refresh_token = true
    · cases resp <;> simp [getAuthenticatedAuthClient, hn, hrt, GAACOut.trace]
    · simp [getAuthenticatedAuthClient, hn, hrt, GAACOut.trace]
  · simp [getAuthenticatedAuthClient, hn, GAACOut.trace]

/-- The call writes the store at most once. -/
lemma gaac_trace_writes_length (cfg : Config) (store : Option Credentials)
    (now : Int) (resp : Option RefreshResp) :
    (getAuthenticatedAuthClient cfg store now resp).trace.storeWrites.length ≤ 1 := by
  by_cases hn : needsRefresh now (initialCredentials cfg store) = true
  · by_cases hrt : truthyStr (initialCredentials cfg store).refresh_token = true
    · cases resp with
      | none => simp [getAuthenticatedAuthClient, hn, hrt, GAACOut.trace]
      | some r =>
        simp only [getAuthenticatedAuthClient, hn, hrt, if_true, GAACOut.trace]
        split <;> simp
    · simp [getAuthenticatedAuthClient, hn, hrt, GAACOut.trace]
  · simp [getAuthenticatedAuthClient, hn, GAACOut.trace]

/-- With a falsy auth state path the call writes nothing. -/
lemma gaac_writes_nil_of_disabled (cfg : Config) (store : Option Credentials)
    (now : Int) (resp : Option RefreshResp)
    (h : cfg.authStateFile.truthy = false) :
    (getAuthenticatedAuthClient cfg store now resp).trace.storeWrites = [] := by
  by_cases hn : needsRefresh now (initialCredentials cfg store) = true
  · by_cases hrt : truthyStr (initialCredentials cfg store).refresh_token = true
    · cases resp <;> simp [getAuthenticatedAuthClient, hn, hrt, GAACOut.trace, h]
    · simp [getAuthenticatedAuthClient, hn, hrt, GAACOut.trace]
  · simp [getAuthenticatedAuthClient, hn, GAACOut.trace]

/-- Claim C1, counterexample: at the exact boundary where current time
plus the 300 000 ms margin equals `expiry_date` (now = 1000, expiry =
301000), the code performs no refresh call (it reuses the cached
token), contradicting the claim that the boundary case performs exactly
one refresh and that reuse requires the margin to end strictly before
the expiry. -/
theorem C1_counterexample :
    ¬ ((1000 : Int) + 300000 < 301000) ∧
    (getAuthenticatedAuthClient
        { clientSecretFile := "cs", authStateFile := .path "f"
          defaultRefreshToken := some "RT", log := .consoleDefault }
        (some { access_token := some "AT", expiry_date := some 301000
                refresh_token := some "RT" })
        1000
        (some { access_token := some "AT2", expiry_date := some 99999999 })
      ).trace.refreshCalls = 0 := by
  constructor
  · decide
  · rfl

/-- Claim C1, amended: the cached access token is reused (no refresh,
no store write, unmodified cached values returned) exactly when
`expiry_date` is set to a truthy (non-zero) value and current time plus
the 300 000 ms margin is less than or equal to `expiry_date`; in every
other case exactly one refresh call is performed, provided a refresh
token is available. -/
theorem C1_freshness (cfg : Config) (store : Option Credentials) (now : Int)
    (resp : RefreshResp) (c : Credentials)
    (hc : c = initialCredentials cfg store) :
    (needsRefresh now c = false ↔
      ∃ e, c.expiry_date = some e ∧ e ≠ 0 ∧ now + 300000 ≤ e) ∧
    (needsRefresh now c = false →
      getAuthenticatedAuthClient cfg store now (some resp) =
        .ok c { logs := [stillValidMessage now (c.expiry_date.getD 0)]
                storeReads := if storeConsulted cfg store then 1 else 0
                storeWrites := []
                mkdirCalls := 0
                refreshCalls := 0 }) ∧
    (needsRefresh now c = true → truthyStr c.refresh_token = true →
      (getAuthenticatedAuthClient cfg store now (some resp)).trace.refreshCalls = 1) := by
  refine ⟨?_, ?_, ?_⟩
  · unfold needsRefresh
    cases h : c.expiry_date with
    | none => simp
    | some e =>
      simp only [Bool.or_eq_false_iff, beq_eq_false_iff_ne, decide_eq_false_iff_not,
        Option.some.injEq]
      constructor
      · rintro ⟨h1, h2⟩
        exact ⟨e, rfl, h1, by omega⟩
      · rintro ⟨e2, he, h1, h2⟩
        cases he
        exact ⟨h1, by omega⟩
  · intro h
    unfold getAuthenticatedAuthClient
    rw [← hc]
    simp [h]
  · intro h hrt
    unfold getAuthenticatedAuthClient
    rw [← hc]
    simp [h, hrt, GAACOut.trace]

/-- Claim C1, witness: a credential set without an expiry and with a
configured default refresh token performs exactly one refresh call. -/
theorem C1_freshness_witness :
    (getAuthenticatedAuthClient
        { clientSecretFile := "cs", authStateFile := .path "f"
          defaultRefreshToken := some "RT", log := .consoleDefault }
        none 0
        (some { access_token := some "A", expiry_date := some 7 })
      ).trace.refreshCalls = 1 :=
  (C1_freshness
    { clientSecretFile := "cs", authStateFile := .path "f"
      defaultRefreshToken := some "RT", log := .consoleDefault }
    none 0
    { access_token := some "A", expiry_date := some 7 }
    (initialCredentials
      { clientSecretFile := "cs", authStateFile := .path "f"
        defaultRefreshToken := some "RT", log := .consoleDefault }
      none)
    rfl).2.2 (by decide) (by decide)

/-- Claim C2, counterexample: with a configured default refresh token
and an existing store file that contains no `refresh_token`, the call
fails with the missing-refresh-token error instead of falling back to
the configured default — reading the store discards the default. -/
theorem C2_counterexample :
    getAuthenticatedAuthClient
        { clientSecretFile := "cs", authStateFile := .path "f"
          defaultRefreshToken := some "RT", log := .consoleDefault }
        (some { access_token := some "AT", expiry_date := some 100
                refresh_token := none })
        1000000
        (some { access_token := some "AT2", expiry_date := some 9999999 }) =
      .err (.missingRefreshToken missingRefreshTokenMessage)
        { logs := [tokenExpiredMessage], storeReads := 1, storeWrites := []
          mkdirCalls := 0, refreshCalls := 0 } := by
  rfl

/-- Claim C2, amended: when the store file exists (and persistence is
enabled), its `refresh_token` field — present or absent — overwrites
the configured default unconditionally; the default refresh token is
used only when the store is not read at all (persistence disabled or
file missing). -/
theorem C2_refresh_token_source (cfg : Config) (store : Option Credentials) :
    (∀ t, store = some t → cfg.authStateFile.truthy = true →
      (initialCredentials cfg store).refresh_token = t.refresh_token) ∧
    (storeConsulted cfg store = false →
      (initialCredentials cfg store).refresh_token =
        (if truthyStr cfg.defaultRefreshToken then cfg.defaultRefreshToken else none)) := by
  constructor
  · rintro t rfl hp
    unfold initialCredentials
    simp [hp]
  · intro h
    unfold storeConsulted at h
    unfold initialCredentials
    cases store with
    | none => exact seed_refresh_token cfg
    | some t =>
      simp only [Option.isSome_some, Bool.and_true] at h
      simp only [h, Bool.false_eq_true, if_false]
      exact seed_refresh_token cfg

/-- Claim C2, witness: a stored refresh token takes precedence over the
configured default. -/
theorem C2_refresh_token_source_witness :
    (initialCredentials
        { clientSecretFile := "cs", authStateFile := .path "f"
          defaultRefreshToken := some "RT", log := .consoleDefault }
        (some { access_token := none, expiry_date := none
                refresh_token := some "SRT" })).refresh_token = some "SRT" :=
  (C2_refresh_token_source
    { clientSecretFile := "cs", authStateFile := .path "f"
      defaultRefreshToken := some "RT", log := .consoleDefault }
    (some { access_token := none, expiry_date := none
            refresh_token := some "SRT" })).1
    { access_token := none, expiry_date := none, refresh_token := some "SRT" }
    rfl (by decide)

/-- Claim C3: when a refresh is required and no refresh token is
available from the store or the configuration, the call fails with the
missing-refresh-token error (its message instructing the operator to
supply a token externally) and performs no store write. -/
theorem C3_missing_refresh_token (cfg : Config) (store : Option Credentials)
    (now : Int) (refreshResp : Option RefreshResp)
    (hd : truthyStr cfg.defaultRefreshToken = false)
    (hs : ∀ t, store = some t → truthyStr t.refresh_token = false)
    (hn : needsRefresh now (initialCredentials cfg store) = true) :
    getAuthenticatedAuthClient cfg store now refreshResp =
      .err (.missingRefreshToken missingRefreshTokenMessage)
        { logs := [refreshBranchMessage (initialCredentials cfg store)]
          storeReads := if storeConsulted cfg store then 1 else 0
          storeWrites := []
          mkdirCalls := 0
          refreshCalls := 0 } :=
  gaac_missing_rt cfg store now refreshResp
    (initial_rt_not_truthy cfg store hd hs) hn

/-- Claim C3, witness: no default token, no store file, refresh needed:
the call throws the missing-refresh-token error without writing. -/
theorem C3_missing_refresh_token_witness :
    getAuthenticatedAuthClient
        { clientSecretFile := "cs", authStateFile := .path "f"
          defaultRefreshToken := none, log := .consoleDefault }
        none 0 none =
      .err (.missingRefreshToken missingRefreshTokenMessage)
        { logs := [noTokenFoundMessage], storeReads := 0, storeWrites := []
          mkdirCalls := 0, refreshCalls := 0 } :=
  (C3_missing_refresh_token
    { clientSecretFile := "cs", authStateFile := .path "f"
      defaultRefreshToken := none, log := .consoleDefault }
    none 0 none (by decide) (fun t ht => nomatch ht) (by decide)).trans
    (by decide)

/-- Claim C4: after a successful refresh the credential set installed
on the client and (when persistence is enabled) written to the store
keeps the pre-refresh `refresh_token` while taking `access_token` and
`expiry_date` from the refresh response. -/
theorem C4_refresh_merge (cfg : Config) (store : Option Credentials) (now : Int)
    (resp : RefreshResp) (c : Credentials)
    (hc : c = initialCredentials cfg store)
    (hn : needsRefresh now c = true)
    (hrt : truthyStr c.refresh_token = true) :
    getAuthenticatedAuthClient cfg store now (some resp) =
      .ok { access_token := resp.access_token
            expiry_date := resp.expiry_date
            refresh_token := c.refresh_token }
        { logs := [refreshBranchMessage c]
          storeReads := if storeConsulted cfg store then 1 else 0
          storeWrites :=
            if cfg.authStateFile.truthy then
              [{ access_token := resp.access_token
                 expiry_date := resp.expiry_date
                 refresh_token := c.refresh_token }]
            else []
          mkdirCalls := 0
          refreshCalls := 1 } := by
  unfold getAuthenticatedAuthClient
  rw [← hc]
  simp [hn, hrt]

/-- Claim C4, witness: a refresh with default token RT and response
(AT2, 777) writes and installs the merged set (AT2, 777, RT). -/
theorem C4_refresh_merge_witness :
    getAuthenticatedAuthClient
        { clientSecretFile := "cs", authStateFile := .path "f"
          defaultRefreshToken := some "RT", log := .consoleDefault }
        none 0
        (some { access_token := some "AT2", expiry_date := some 777 }) =
      .ok { access_token := some "AT2", expiry_date := some 777
            refresh_token := some "RT" }
        { logs := [noTokenFoundMessage], storeReads := 0
          storeWrites := [{ access_token := some "AT2", expiry_date := some 777
                            refresh_token := some "RT" }]
          mkdirCalls := 0, refreshCalls := 1 } :=
  (C4_refresh_merge
    { clientSecretFile := "cs", authStateFile := .path "f"
      defaultRefreshToken := some "RT", log := .consoleDefault }
    none 0
    { access_token := some "AT2", expiry_date := some 777 }
    (initialCredentials
      { clientSecretFile := "cs", authStateFile := .path "f"
        defaultRefreshToken := some "RT", log := .consoleDefault }
      none)
    rfl (by decide) (by decide)).trans (by decide)

/-- Claim C5, counterexample: a `login` whose exchange returns a token
set without a `refresh_token` replaces a store that held one, so the
stored refresh token is lost — contradicting the claim that no manager
operation ever removes a stored refresh token. -/
theorem C5_counterexample :
    storeAfterLogin
        { clientSecretFile := "cs", authStateFile := .path "f"
          defaultRefreshToken := none, log := .consoleDefault }
        (some { access_token := none, expiry_date := none
                refresh_token := some "RT" })
        { access_token := some "AT", expiry_date := some 999
          refresh_token := none } =
      some { access_token := some "AT", expiry_date := some 999
             refresh_token := none } := by
  rfl

/-- Claim C5, amended: `getAuthenticatedAuthClient` never removes a
stored refresh token (after any such call the store still holds a
document with the same `refresh_token`), but `login` overwrites the
store wholesale with the exchange result, so a stored refresh token
survives `login` only if the exchange returns it. -/
theorem C5_refresh_token_retention (cfg : Config) (store : Option Credentials)
    (now : Int) (resp : Option RefreshResp) (t tokens : Credentials)
    (hp : cfg.authStateFile.truthy = true) (hst : store = some t) :
    (∃ d, storeAfterGAAC cfg store now resp = some d ∧
      d.refresh_token = t.refresh_token) ∧
    storeAfterLogin cfg store tokens = some tokens := by
  constructor
  · have hi : (initialCredentials cfg store).refresh_token = t.refresh_token := by
      subst hst
      unfold initialCredentials
      simp [hp]
    unfold storeAfterGAAC applyWrites
    cases hlast : (getAuthenticatedAuthClient cfg store now resp).trace.storeWrites.getLast? with
    | none =>
      subst hst
      exact ⟨t, rfl, rfl⟩
    | some w =>
      refine ⟨w, rfl, ?_⟩
      have hmem : w ∈ (getAuthenticatedAuthClient cfg store now resp).trace.storeWrites := by
        rcases List.mem_getLast?_eq_getLast (Option.mem_def.mpr hlast) with ⟨hne, hwl⟩
        rw [hwl]
        exact List.getLast_mem hne
      rw [gaac_writes_refresh_token cfg store now resp w hmem]
      exact hi
  · unfold storeAfterLogin login
    simp [hp]

/-- Claim C5, witness: after a failing refresh attempt the store keeps
its refresh token, and a `login` replaces the store with the exchange
result. -/
theorem C5_refresh_token_retention_witness :
    (∃ d, storeAfterGAAC
        { clientSecretFile := "cs", authStateFile := .path "f"
          defaultRefreshToken := none, log := .consoleDefault }
        (some { access_token := none, expiry_date := some 999999999
                refresh_token := some "SRT" })
        0 none = some d ∧
      d.refresh_token =
        (Credentials.mk none (some 999999999) (some "SRT")).refresh_token) ∧
    storeAfterLogin
        { clientSecretFile := "cs", authStateFile := .path "f"
          defaultRefreshToken := none, log := .consoleDefault }
        (some { access_token := none, expiry_date := some 999999999
                refresh_token := some "SRT" })
        { access_token := some "a", expiry_date := some 1
          refresh_token := none } =
      some { access_token := some "a", expiry_date := some 1
             refresh_token := none } :=
  C5_refresh_token_retention
    { clientSecretFile := "cs", authStateFile := .path "f"
      defaultRefreshToken := none, log := .consoleDefault }
    (some { access_token := none, expiry_date := some 999999999
            refresh_token := some "SRT" })
    0 none
    { access_token := none, expiry_date := some 999999999
      refresh_token := some "SRT" }
    { access_token := some "a", expiry_date := some 1
      refresh_token := none }
    (by decide) rfl

/-- Claim C6: with persistence disabled, no store file is read or
written by `getAuthenticatedAuthClient` or `login` (the store state is
unchanged), and a call that requires a refresh without a configured
default refresh token fails with the missing-refresh-token error. -/
theorem C6_disabled_persistence (cfg : Config) (store : Option Credentials)
    (now : Int) (resp : Option RefreshResp) (tokens : Credentials)
    (h : cfg.authStateFile = .disabled) :
    (getAuthenticatedAuthClient cfg store now resp).trace.storeReads = 0 ∧
    (getAuthenticatedAuthClient cfg store now resp).trace.storeWrites = [] ∧
    storeAfterGAAC cfg store now resp = store ∧
    (login cfg tokens).written = none ∧
    storeAfterLogin cfg store tokens = store ∧
    (truthyStr cfg.defaultRefreshToken = false →
      needsRefresh now (initialCredentials cfg store) = true →
      getAuthenticatedAuthClient cfg store now resp =
        .err (.missingRefreshToken missingRefreshTokenMessage)
          { logs := [refreshBranchMessage (initialCredentials cfg store)]
            storeReads := 0, storeWrites := [], mkdirCalls := 0
            refreshCalls := 0 }) := by
  have ht : cfg.authStateFile.truthy = false := by
    rw [h]; rfl
  have hwr := gaac_writes_nil_of_disabled cfg store now resp ht
  have hsc : storeConsulted cfg store = false := by
    unfold storeConsulted
    rw [ht]
    rfl
  refine ⟨?_, hwr, ?_, ?_, ?_, ?_⟩
  · rw [gaac_trace_storeReads, hsc]
    rfl
  · unfold storeAfterGAAC
    rw [hwr]
    rfl
  · unfold login
    rw [ht]
    simp
  · unfold storeAfterLogin login
    rw [ht]
    simp
  · intro hd hn
    have hrt : truthyStr (initialCredentials cfg store).refresh_token = false := by
      rw [initial_rt_disabled cfg store ht, truthyStr_seed]
      exact hd
    rw [gaac_missing_rt cfg store now resp hrt hn, hsc]
    simp

/-- Claim C6, witness: with persistence disabled the call reads the
store zero times. -/
theorem C6_disabled_persistence_witness :
    (getAuthenticatedAuthClient
        { clientSecretFile := "cs", authStateFile := .disabled
          defaultRefreshToken := some "RT", log := .consoleDefault }
        none 3 none).trace.storeReads = 0 :=
  (C6_disabled_persistence
    { clientSecretFile := "cs", authStateFile := .disabled
      defaultRefreshToken := some "RT", log := .consoleDefault }
    none 3 none
    { access_token := some "a", expiry_date := some 1, refresh_token := none }
    rfl).1

/-- Claim C7, counterexample: the refresh path of
`getAuthenticatedAuthClient` performs a store write with zero
directory-creation calls, contradicting the claim that every store
write creates missing parent directories first. -/
theorem C7_counterexample :
    (getAuthenticatedAuthClient
        { clientSecretFile := "cs", authStateFile := .path "d/f"
          defaultRefreshToken := some "RT", log := .consoleDefault }
        none 0
        (some { access_token := some "AT", expiry_date := some 9999999 })
      ).trace =
      { logs := [noTokenFoundMessage]
        storeReads := 0
        storeWrites := [{ access_token := some "AT", expiry_date := some 9999999
                          refresh_token := some "RT" }]
        mkdirCalls := 0
        refreshCalls := 1 } := by
  rfl

/-- Claim C7, amended: only the write performed by `login` creates
missing parent directories before writing; the write performed by the
refresh path of `getAuthenticatedAuthClient` does not create any
directory. -/
theorem C7_mkdir_only_login (cfg : Config) (tokens : Credentials)
    (store : Option Credentials) (now : Int) (resp : Option RefreshResp) :
    ((login cfg tokens).written.isSome = true →
      (login cfg tokens).mkdirCalls = 1) ∧
    (getAuthenticatedAuthClient cfg store now resp).trace.mkdirCalls = 0 := by
  constructor
  · intro hw
    unfold login at hw ⊢
    by_cases hp : cfg.authStateFile.truthy = true
    · simp [hp]
    · simp [hp] at hw
  · exact gaac_trace_mkdirCalls cfg store now resp

/-- Claim C7, witness: a `login` with persistence enabled performs one
directory creation. -/
theorem C7_mkdir_only_login_witness :
    (login
        { clientSecretFile := "cs", authStateFile := .path "f"
          defaultRefreshToken := none, log := .consoleDefault }
        { access_token := some "a", expiry_date := some 1
          refresh_token := some "r" }).mkdirCalls = 1 :=
  (C7_mkdir_only_login
    { clientSecretFile := "cs", authStateFile := .path "f"
      defaultRefreshToken := none, log := .consoleDefault }
    { access_token := some "a", expiry_date := some 1
      refresh_token := some "r" }
    none 0 none).1 (by decide)

/-- Claim C8: each configuration field is resolved at construction with
precedence explicit argument over environment variable over built-in
default; an explicitly supplied value always wins over a set
environment variable, and once all fields are supplied explicitly the
environment is irrelevant. -/
theorem C8_config_resolution (options : GoogleOfflineAccessOptions) (env : EnvVars) :
    (∀ s, options.clientSecretFile = some s →
      (construct options env).clientSecretFile = s) ∧
    (∀ a, options.authStateFile = some a →
      (construct options env).authStateFile = a) ∧
    (∀ s, options.defaultRefreshToken = some s →
      (construct options env).defaultRefreshToken = some s) ∧
    (∀ l, options.log = some l → (construct options env).log = l) ∧
    (options.clientSecretFile = none → ∀ s, env.googleClientSecretFile = some s →
      (construct options env).clientSecretFile = s) ∧
    (options.authStateFile = none → ∀ s, env.googleAuthStateFile = some s →
      (construct options env).authStateFile = .path s) ∧
    (options.defaultRefreshToken = none →
      (construct options env).defaultRefreshToken = env.googleRefreshToken) ∧
    (options.clientSecretFile = none → env.googleClientSecretFile = none →
      (construct options env).clientSecretFile = ".data/google_client_secret.json") ∧
    (options.authStateFile = none → env.googleAuthStateFile = none →
      (construct options env).authStateFile = .path ".data/google_auth.json") ∧
    (options.log = none → (construct options env).log = .consoleDefault) ∧
    ((∃ cs, options.clientSecretFile = some cs) →
      (∃ a, options.authStateFile = some a) →
      (∃ d, options.defaultRefreshToken = some d) →
      (∃ l, options.log = some l) →
      ∀ env2, construct options env = construct options env2) := by
  refine ⟨?_, ?_, ?_, ?_, ?_, ?_, ?_, ?_, ?_, ?_, ?_⟩
  · intro s hs; simp [construct, hs]
  · intro a ha; simp [construct, ha]
  · intro s hs; simp [construct, hs, Option.or]
  · intro l hl; simp [construct, hl]
  · intro h s hs; simp [construct, h, hs]
  · intro h s hs; simp [construct, h, hs]
  · intro h; simp [construct, h, Option.or]
  · intro h he; simp [construct, h, he]
  · intro h he; simp [construct, h, he]
  · intro h; simp [construct, h]
  · rintro ⟨cs, hcs⟩ ⟨a, ha⟩ ⟨d, hd⟩ ⟨l, hl⟩ env2
    simp [construct, hcs, ha, hd, hl, Option.or]

/-- Claim C8, witness: an explicitly supplied client-secret path wins
over a set environment variable. -/
theorem C8_config_resolution_witness :
    (construct
        { clientSecretFile := some "explicit.json", authStateFile := none
          defaultRefreshToken := none, log := none }
        { googleClientSecretFile := some "env.json"
          googleAuthStateFile := none
          googleRefreshToken := none }).clientSecretFile = "explicit.json" :=
  (C8_config_resolution
    { clientSecretFile := some "explicit.json", authStateFile := none
      defaultRefreshToken := none, log := none }
    { googleClientSecretFile := some "env.json"
      googleAuthStateFile := none
      googleRefreshToken := none }).1 "explicit.json" rfl

/-- Claim C9, counterexample: with persistence disabled the call reads
the store zero times, contradicting the claim that every call performs
exactly one store read. -/
theorem C9_counterexample :
    (getAuthenticatedAuthClient
        { clientSecretFile := "cs", authStateFile := .disabled
          defaultRefreshToken := some "RT", log := .consoleDefault }
        none 5
        (some { access_token := some "A", expiry_date := some 7 })
      ).trace.storeReads ≠ 1 := by
  decide

/-- Claim C9, amended: every call performs at most one store read
(exactly one when persistence is enabled and the store file exists), at
most one store write, and emits exactly one log message, which is the
no-token-found message, the token-expired message, or the still-valid
message reporting the floor of milliseconds-to-expiry divided by
60000. -/
theorem C9_side_effects (cfg : Config) (store : Option Credentials)
    (now : Int) (resp : Option RefreshResp) :
    (getAuthenticatedAuthClient cfg store now resp).trace.storeReads =
      (if storeConsulted cfg store then 1 else 0) ∧
    (getAuthenticatedAuthClient cfg store now resp).trace.storeWrites.length ≤ 1 ∧
    (getAuthenticatedAuthClient cfg store now resp).trace.logs.length = 1 ∧
    ((getAuthenticatedAuthClient cfg store now resp).trace.logs = [noTokenFoundMessage] ∨
     (getAuthenticatedAuthClient cfg store now resp).trace.logs = [tokenExpiredMessage] ∨
     ∃ e, (initialCredentials cfg store).expiry_date = some e ∧
       now + 300000 ≤ e ∧
       (getAuthenticatedAuthClient cfg store now resp).trace.logs =
         [stillValidMessage now e]) := by
  refine ⟨gaac_trace_storeReads cfg store now resp,
    gaac_trace_writes_length cfg store now resp, ?_, ?_⟩
  · rw [gaac_trace_logs]
    split <;> rfl
  · rw [gaac_trace_logs]
    by_cases hn : needsRefresh now (initialCredentials cfg store) = true
    · rw [if_pos hn]
      unfold refreshBranchMessage
      by_cases he : truthyNum (initialCredentials cfg store).expiry_date = true
      · rw [if_pos he]
        exact Or.inr (Or.inl rfl)
      · rw [if_neg he]
        exact Or.inl rfl
    · rw [if_neg hn]
      refine Or.inr (Or.inr ?_)
      unfold needsRefresh at hn
      cases he : (initialCredentials cfg store).expiry_date with
      | none => rw [he] at hn; simp at hn
      | some e =>
        rw [he] at hn
        simp only [Bool.or_eq_true, beq_iff_eq, decide_eq_true_eq, not_or] at hn
        refine ⟨e, rfl, by omega, rfl⟩

/-- Claim C10: a store whose `expiry_date` is 0 (falsy) is treated as
"no expiry recorded": the call takes the refresh branch and logs the
no-token-found message even though an access token and an expiry field
are present; the choice between the two refresh-branch messages is
decided by the truthiness of `expiry_date`. -/
theorem C10_falsy_expiry (cfg : Config) (store : Option Credentials)
    (t : Credentials) (now : Int) (resp : Option RefreshResp)
    (hst : store = some t) (hp : cfg.authStateFile.truthy = true)
    (he : t.expiry_date = some 0) :
    needsRefresh now (initialCredentials cfg store) = true ∧
    (getAuthenticatedAuthClient cfg store now resp).trace.logs =
      [noTokenFoundMessage] ∧
    (∀ c : Credentials, truthyNum c.expiry_date = false →
      refreshBranchMessage c = noTokenFoundMessage) ∧
    (∀ c : Credentials, truthyNum c.expiry_date = true →
      refreshBranchMessage c = tokenExpiredMessage) := by
  have hie : (initialCredentials cfg store).expiry_date = some 0 := by
    subst hst
    unfold initialCredentials
    simp [hp, he]
  have hn : needsRefresh now (initialCredentials cfg store) = true := by
    unfold needsRefresh
    rw [hie]
    simp
  refine ⟨hn, ?_, ?_, ?_⟩
  · rw [gaac_trace_logs, if_pos hn]
    unfold refreshBranchMessage
    rw [hie]
    rfl
  · intro c hc
    unfold refreshBranchMessage
    rw [hc]
    rfl
  · intro c hc
    unfold refreshBranchMessage
    rw [hc]
    rfl

/-- Claim C10, witness: a store with access token present and
`expiry_date` 0 logs the no-token-found message. -/
theorem C10_falsy_expiry_witness :
    (getAuthenticatedAuthClient
        { clientSecretFile := "cs", authStateFile := .path "f"
          defaultRefreshToken := none, log := .consoleDefault }
        (some { access_token := some "AT", expiry_date := some 0
                refresh_token := some "RT" })
        42 none).trace.logs = [noTokenFoundMessage] :=
  (C10_falsy_expiry
    { clientSecretFile := "cs", authStateFile := .path "f"
      defaultRefreshToken := none, log := .consoleDefault }
    (some { access_token := some "AT", expiry_date := some 0
            refresh_token := some "RT" })
    { access_token := some "AT", expiry_date := some 0
      refresh_token := some "RT" }
    42 none rfl (by decide) rfl).2.1

end GoogleOfflineAccess
